import Mathlib

/-!
Shallow embedding of traxys/git-series-manager (src/main.rs) and proofs about
its patch-series versioning and interdiff workflow.

Conventions of the embedding:
* Rust string primitives (`trim`, `replace`, `contains`, `split_once`,
  `strip_prefix` in the source) are re-implemented over `List Char`, matching
  the Rust semantics on the ASCII data the tool manipulates.
* Filesystem directories are passed as the list of their entry names, in
  directory-iteration order; filesystem and external-process effects of the
  `FormatPatch::run` workflow are recorded as an explicit trace of operations
  (`Op`), and the success or failure of each external step is supplied by an
  `Oracle` so that every control path of the source can be examined.
* Rust `Result`/`miette::Report` failures become `Except`; a `panic!` caused
  by `expect`/`unwrap` is a distinct error constructor, because a panic aborts
  the process without producing a diagnostic report.
-/

namespace Gsm

/-- Decidable equality for Except outcomes, so concrete runs of the model
can be settled by evaluation. -/
instance {ε α : Type} [DecidableEq ε] [DecidableEq α] :
    DecidableEq (Except ε α) := fun x y =>
  match x, y with
  | .ok a, .ok b =>
    if h : a = b then isTrue (by rw [h]) else isFalse (by simp [h])
  | .error a, .error b =>
    if h : a = b then isTrue (by rw [h]) else isFalse (by simp [h])
  | .ok _, .error _ => isFalse (by simp)
  | .error _, .ok _ => isFalse (by simp)

/-- Whitespace test used by trims; the ASCII fragment of Rust's
`char::is_whitespace` (all data handled by the tool is ASCII). -/
def is_ws (c : Char) : Bool :=
  c = ' ' || c = '\t' || c = '\n' || c = '\r' || c = '\x0b' || c = '\x0c'

/-- Does the second list start with the first one (Rust `str::starts_with`)? -/
def list_starts : List Char → List Char → Bool
  | [], _ => true
  | _ :: _, [] => false
  | p :: ps, c :: cs => p = c && list_starts ps cs

/-- Does the list contain the pattern as a contiguous sublist
(Rust `str::contains`)? -/
def list_contains (pat : List Char) : List Char → Bool
  | [] => list_starts pat []
  | c :: rest => list_starts pat (c :: rest) || list_contains pat rest

/-- Rust `s.contains(pat)` on strings. -/
def contains_sub (s pat : String) : Bool :=
  list_contains pat.data s.data

/-- Rust `s.ends_with(pat)` on strings. -/
def ends_with (s pat : String) : Bool :=
  list_starts pat.data.reverse s.data.reverse

/-- Rust `s.parse::<u64>()` (main.rs line 553): optional leading plus sign,
then one or more ASCII digits, value below 2^64. -/
def parse_u64 (s : String) : Option Nat :=
  let cs := match s.data with
    | '+' :: rest => rest
    | cs => cs
  if cs.isEmpty then none
  else if cs.all Char.isDigit then
    let v := cs.foldl (fun a c => a * 10 + (c.toNat - 48)) 0
    if v < 2 ^ 64 then some v else none
  else none

/-- Both-ends whitespace trim on a character list (Rust `str::trim`). -/
def trim_list (cs : List Char) : List Char :=
  ((cs.dropWhile is_ws).reverse.dropWhile is_ws).reverse

/-- Rust `str::trim` (removes leading and trailing whitespace). -/
def str_trim (s : String) : String :=
  ⟨trim_list s.data⟩

/-- Trailing-only whitespace trim; this is the operation the claim about the
VCS gateway describes (the source uses the both-ends `trim`). -/
def trim_end_claim (s : String) : String :=
  ⟨(s.data.reverse.dropWhile is_ws).reverse⟩

/-- A string is fully trimmed: its first and last characters, when present,
are not whitespace. -/
def no_edge_ws (s : String) : Bool :=
  (match s.data.head? with
    | some c => !is_ws c
    | none => true)
  && (match s.data.getLast? with
    | some c => !is_ws c
    | none => true)

/-- Rust `s.split_once(sep)` on a character list: split at the first
occurrence of the separator, which is dropped. -/
def split_once_list (sep : Char) : List Char → Option (List Char × List Char)
  | [] => none
  | c :: rest =>
    if c = sep then some ([], rest)
    else (split_once_list sep rest).map (fun p => (c :: p.1, p.2))

/-- Rust `s.split_once('\n')` (main.rs line 467). -/
def split_once_nl (s : String) : Option (String × String) :=
  (split_once_list '\n' s.data).map (fun p => (⟨p.1⟩, ⟨p.2⟩))

/-- Rust `line.strip_prefix("Title: ")` (main.rs line 471). -/
def drop_title (line : String) : Option String :=
  if list_starts "Title: ".data line.data then
    some ⟨line.data.drop "Title: ".data.length⟩
  else none

/-- Fuel-driven core of Rust `str::replace`: replace every non-overlapping
occurrence of `pat`, scanning left to right. Fuel bounded by the length of
the subject suffices because each step consumes at least one character. -/
def repl_go (pat rep : List Char) : Nat → List Char → List Char
  | 0, s => s
  | _ + 1, [] => []
  | fuel + 1, c :: rest =>
    if pat ≠ [] ∧ list_starts pat (c :: rest) = true then
      rep ++ repl_go pat rep fuel ((c :: rest).drop pat.length)
    else c :: repl_go pat rep fuel rest

/-- Rust `s.replace(pat, rep)` (main.rs lines 501-503). -/
def str_replace (s pat rep : String) : String :=
  ⟨repl_go pat.data rep.data s.data.length s.data⟩

/-- Fuel-driven count of non-overlapping occurrences of `pat`. -/
def count_go (pat : List Char) : Nat → List Char → Nat
  | 0, _ => 0
  | _ + 1, [] => 0
  | fuel + 1, c :: rest =>
    if pat ≠ [] ∧ list_starts pat (c :: rest) = true then
      1 + count_go pat fuel ((c :: rest).drop pat.length)
    else count_go pat fuel rest

/-- Number of non-overlapping occurrences of `pat` in `s`. -/
def count_occ (s pat : String) : Nat :=
  count_go pat.data s.data.length s.data

/-- Reserved per-branch cover-letter-template entry name
(COVER_LETTER_NAME, main.rs line 18). -/
def cover_letter_name : String := "cover-letter"

/-!  Version store (latest_version, main.rs lines 531-564).  -/

/-- Failure channel of `latest_version`. A `panic` models a Rust
`expect`/`unwrap` abort: the process dies printing the bare message, with no
diagnostic report. A `diag` models a `miette::Report` built through
`into_diagnostic`/`wrap_err`: an error value carrying a context chain that is
returned to the caller and printed as a chained explanation. -/
inductive LvErr
  | panic (msg : String)
  | diag (msg : String) (ctx : List String)
  deriving DecidableEq, Repr

/-- Is the error a diagnostic report carrying a context chain (as opposed to
a process-aborting panic)? -/
def LvErr.is_diag : LvErr → Bool
  | .diag _ _ => true
  | .panic _ => false

/-- The filter_map / try_fold loop of `latest_version` (main.rs lines
540-560): skip the reserved cover-letter entry, parse every other entry name
as u64 (the source panics via `expect("version is not an int")` on a
non-numeric name), and fold with `max` starting from 0. -/
def lv_fold (cur : Nat) : List String → Except LvErr Nat
  | [] => .ok cur
  | name :: rest =>
    if name = cover_letter_name then lv_fold cur rest
    else
      match parse_u64 name with
      | some v => lv_fold (max v cur) rest
      | none => .error (.panic "version is not an int")

/-- latest_version (main.rs lines 531-564) on the entry names of the branch
directory: `none` when the directory has no entries (the `peek` check),
otherwise the maximum numeric entry name, 0 if only the reserved entry is
present. -/
def latest_version (entries : List String) : Except LvErr (Option Nat) :=
  match entries with
  | [] => .ok none
  | _ => (lv_fold 0 entries).map some

/-- Version chosen by FormatPatch::run (main.rs lines 294-299): the explicit
`--version` when given, else latest + 1, else none. -/
def compute_version (explicit latest : Option Nat) : Option Nat :=
  match explicit with
  | some v => some v
  | none => latest.map (fun v => v + 1)

/-- Name of the version directory (main.rs line 301): the version, or 1 when
no version was computed. -/
def version_dir_name (version : Option Nat) : String :=
  toString (version.getD 1)

/-- Argument vector built by the format_patch closure (main.rs lines
327-339): output directory, optional `-v <n>`, subject, cover letter,
closure extra arguments (the interdiff flag), then user extra arguments. -/
def format_patch_args (versionDir : String) (version : Option Nat)
    (component : String) (extra userExtra : List String) : List String :=
  ["format-patch", "-o", versionDir]
    ++ (match version with
      | some v => ["-v", toString v]
      | none => [])
    ++ ["--subject-prefix=PATCH " ++ component, "--cover-letter"]
    ++ extra ++ userExtra

/-- Full path of an entry of version `m` of the branch directory, as built by
`e.path()` in main.rs lines 422-426 (Unix path join). -/
def full_path (branchDir : String) (m : Nat) (name : String) : String :=
  branchDir ++ "/" ++ toString m ++ "/" ++ name

/-- Patch paths replayed for the interdiff (main.rs lines 412-434): every
entry of the old version directory, mapped to its full path, keeping exactly
the paths that do NOT contain the substring "cover-letter". -/
def interdiff_patches (branchDir : String) (m : Nat)
    (entries : List String) : List String :=
  (entries.map (full_path branchDir m)).filter
    (fun path => !contains_sub path cover_letter_name)

/-- The claim's reading of the interdiff enumeration: exclude only the
cover-letter patch file itself, i.e. the entry whose name ends with the
cover-letter suffix; apply every other entry. -/
def interdiff_patches_claim (branchDir : String) (m : Nat)
    (entries : List String) : List String :=
  (entries.filter (fun n => !ends_with n "cover-letter.patch")).map
    (full_path branchDir m)

/-!  Cover letter binder (main.rs lines 445-513).  -/

/-- Failure channel of the cover-letter template parse. `missingTitleTag` is
the spec's MissingTitlePrefix (first line does not begin with the title tag,
main.rs line 472); `missingTitleNewline` is the spec's MissingTitleNewline
(no newline at all, main.rs line 468). -/
inductive TemplateErr
  | missingTitleNewline
  | missingTitleTag
  deriving DecidableEq, Repr

/-- Parse of the edited cover-letter template (main.rs lines 467-473), in
source order: first split at the first newline (error when there is none),
then strip the `Title: ` tag from the first line (error when absent). The
returned title and body are raw; trimming happens at the bind site. -/
def parse_template (s : String) : Except TemplateErr (String × String) :=
  match split_once_nl s with
  | none => .error .missingTitleNewline
  | some (line, body) =>
    match drop_title line with
    | none => .error .missingTitleTag
    | some title => .ok (title, body)

/-- Title and body as the binder uses them: parsed, then trimmed
(main.rs lines 502-503 apply `.trim()` to both). -/
def extract_template (s : String) : Except TemplateErr (String × String) :=
  (parse_template s).map (fun p => (str_trim p.1, str_trim p.2))

/-- Bind step (main.rs lines 501-503): replace the subject marker with the
trimmed title and the blurb marker with the trimmed body in the generated
cover-letter file content. -/
def bind_cover (title body content : String) : String :=
  str_replace
    (str_replace content "*** SUBJECT HERE ***" (str_trim title))
    "*** BLURB HERE ***" (str_trim body)

/-!  VCS gateway (git_bare, main.rs lines 566-583).  -/

/-- Failure channel of the gateway: `launch` when the process could not be
started (duct `run` error, wrapped "failed to launch git"); `failed` when it
ran and exited non-zero, carrying the captured text and the wrapping context
"git command failed". -/
inductive VcsErr
  | launch (msg : String)
  | failed (msg ctx : String)
  deriving DecidableEq, Repr

/-- git_bare (main.rs lines 566-583), parameterized by whether the process
could be launched, whether it exited zero, and the combined
stdout-and-stderr capture (`stderr_to_stdout` + `stdout_capture`). The
captured text is trimmed with Rust `trim` (both ends, main.rs line 576). -/
def git_bare (launched exitOk : Bool) (combined : String) : Except VcsErr String :=
  if launched = false then .error (.launch "failed to launch git")
  else
    let output := str_trim combined
    if exitOk = false then .error (.failed output "git command failed")
    else .ok output

/-- The text a gateway outcome carries: the result on success, the captured
message on a command failure, nothing on a launch failure. -/
def carried_text : Except VcsErr String → Option String
  | .ok s => some s
  | .error (.failed m _) => some m
  | .error (.launch _) => none

/-!  Workflow model of FormatPatch::run (main.rs lines 244-518).

The filesystem and external-process effects are recorded as a trace of
operations; the outcome of every external step (each of which can fail in
the source through `?`) is supplied by an `Oracle`. Drop guards of the
source (VersionDir line 317, TempBranch line 354, GitWorktree line 371) are
modelled by appending their cleanup operation on every exit path on which
the guard is live, in Rust drop order (reverse declaration order).  -/

/-- One observable operation of the workflow. -/
inductive Op
  | rmVersionDir
  | gitBranchCreate (name base : String)
  | gitWorktreeAdd
  | gitSwitch (name : String)
  | gitAm (patches : List String)
  | gitFormatPatch (args : List String)
  | mkVersionDir
  | gitWorktreeRemove
  | gitBranchDelete (name : String)
  | writeTemplateFile
  | runEditor
  | writeCoverFile (content : String)
  deriving DecidableEq, Repr

/-- Errors of the workflow, one per `return Err`/`?` site the model keeps. -/
inductive RunErr
  | versionConflict
  | gitFailed (stage : String)
  | ioErr (stage : String)
  | missingTitleNewline
  | missingTitleTag
  | coverNotFound
  deriving DecidableEq, Repr

/-- Outcome of every external step of one FormatPatch::run invocation, plus
the inputs the workflow reads. Each `..Ok` field tells whether the
corresponding fallible call of the source succeeds in this run. -/
structure Oracle where
  dirExists : Bool
  force : Bool
  version : Option Nat
  diff : Option Nat
  base : String
  branchDir : String
  component : String
  userExtra : List String
  interdiffEntries : List String
  branchCreateOk : Bool
  tempDirOk : Bool
  worktreeAddOk : Bool
  switchOk : Bool
  readEntriesOk : Bool
  amOk : Bool
  fpOk : Bool
  fpDirOnFail : Bool
  templateExists : Bool
  writeTemplateOk : Bool
  editorOk : Bool
  readBackOk : Bool
  templateContent : String
  coverFound : Bool
  readCoverOk : Bool
  coverContent : String
  writeCoverOk : Bool
  deriving DecidableEq, Repr

/-- Path passed as `-o` to the backend (main.rs line 301). -/
def full_version_dir (o : Oracle) : String :=
  o.branchDir ++ "/" ++ version_dir_name o.version

/-- Conflict check on the target version directory (main.rs lines 303-311):
error without touching anything when it exists and force is not set, remove
it first when force is set. -/
def conflict_check (dirExists force : Bool) : Except RunErr (List Op) :=
  if dirExists then
    if force = false then .error .versionConflict
    else .ok [.rmVersionDir]
  else .ok []

/-- Transient branch name used by the interdiff block (main.rs line 366). -/
def temp_branch_name : String := "__patch_old"

/-- Backend arguments of the format_patch closure for this run. -/
def run_fp_args (o : Oracle) (extra : List String) : List String :=
  format_patch_args (full_version_dir o) o.version o.component extra o.userExtra

/-- The interdiff block (main.rs lines 348-440), for old version `m`.
Every exit path lists, in order, the operations issued up to the early
return, followed by the drops of the live guards: GitWorktree (worktree
remove) before TempBranch (branch delete), matching reverse declaration
order. On the success path the backend call that creates the version
directory happens while both transient resources are still alive, and their
drops run when the block ends. `fpDirOnFail` tells whether the backend had
already created the output directory when a failing `format-patch`
invocation returned, as §4.3 of the spec contemplates. -/
def interdiff_phase (o : Oracle) (m : Nat) : Except RunErr Unit × List Op :=
  if o.branchCreateOk = false then
    (.error (.gitFailed "create interdiff branch"),
      [.gitBranchCreate temp_branch_name o.base])
  else if o.tempDirOk = false then
    (.error (.ioErr "could not create worktree directory"),
      [.gitBranchCreate temp_branch_name o.base,
       .gitBranchDelete temp_branch_name])
  else if o.worktreeAddOk = false then
    (.error (.gitFailed "worktree add"),
      [.gitBranchCreate temp_branch_name o.base, .gitWorktreeAdd,
       .gitBranchDelete temp_branch_name])
  else if o.switchOk = false then
    (.error (.gitFailed "switch"),
      [.gitBranchCreate temp_branch_name o.base, .gitWorktreeAdd,
       .gitSwitch temp_branch_name,
       .gitWorktreeRemove, .gitBranchDelete temp_branch_name])
  else if o.readEntriesOk = false then
    (.error (.ioErr "could not read interdiff folder"),
      [.gitBranchCreate temp_branch_name o.base, .gitWorktreeAdd,
       .gitSwitch temp_branch_name,
       .gitWorktreeRemove, .gitBranchDelete temp_branch_name])
  else if o.amOk = false then
    (.error (.gitFailed "am"),
      [.gitBranchCreate temp_branch_name o.base, .gitWorktreeAdd,
       .gitSwitch temp_branch_name,
       .gitAm (interdiff_patches o.branchDir m o.interdiffEntries),
       .gitWorktreeRemove, .gitBranchDelete temp_branch_name])
  else if o.fpOk = false then
    (.error (.gitFailed "format-patch"),
      [.gitBranchCreate temp_branch_name o.base, .gitWorktreeAdd,
       .gitSwitch temp_branch_name,
       .gitAm (interdiff_patches o.branchDir m o.interdiffEntries),
       .gitFormatPatch (run_fp_args o ["--interdiff=" ++ temp_branch_name])]
      ++ (if o.fpDirOnFail then [Op.mkVersionDir] else [])
      ++ [.gitWorktreeRemove, .gitBranchDelete temp_branch_name])
  else
    (.ok (),
      [.gitBranchCreate temp_branch_name o.base, .gitWorktreeAdd,
       .gitSwitch temp_branch_name,
       .gitAm (interdiff_patches o.branchDir m o.interdiffEntries),
       .gitFormatPatch (run_fp_args o ["--interdiff=" ++ temp_branch_name]),
       .mkVersionDir,
       .gitWorktreeRemove, .gitBranchDelete temp_branch_name])

/-- Generation of the patch set (main.rs lines 348-443): the interdiff block
when an old version is requested, else the bare format_patch closure call.
The result is `ok` exactly when the VersionDir guard of line 343 was
constructed (the backend call succeeded). -/
def generation_phase (o : Oracle) : Except RunErr Unit × List Op :=
  match o.diff with
  | some m => interdiff_phase o m
  | none =>
    if o.fpOk = false then
      (.error (.gitFailed "format-patch"),
        [.gitFormatPatch (run_fp_args o [])]
          ++ (if o.fpDirOnFail then [Op.mkVersionDir] else []))
    else (.ok (), [.gitFormatPatch (run_fp_args o []), .mkVersionDir])

/-- Operations shared by every cover-letter-phase path that passes the
template-creation step: write the template when it is missing (main.rs lines
446-455), then run the editor (lines 457-461). -/
def cover_pre (o : Oracle) : List Op :=
  if o.templateExists then [.runEditor] else [.writeTemplateFile, .runEditor]

/-- Cover-letter phase (main.rs lines 445-513): create the template when
missing, run the editor, read the template back, parse it, locate the
generated cover-letter patch, and rewrite it with the bound content. The
trace does not include the drop of the VersionDir guard; the caller appends
it (the guard lives in the enclosing scope). -/
def cover_phase (o : Oracle) : Except RunErr Unit × List Op :=
  if o.templateExists = false ∧ o.writeTemplateOk = false then
    (.error (.ioErr "could not write cover letter"), [.writeTemplateFile])
  else if o.editorOk = false then
    (.error (.ioErr "could not edit cover letter"), cover_pre o)
  else if o.readBackOk = false then
    (.error (.ioErr "error while reading back the cover letter"), cover_pre o)
  else
    match parse_template o.templateContent with
    | .error .missingTitleNewline => (.error .missingTitleNewline, cover_pre o)
    | .error .missingTitleTag => (.error .missingTitleTag, cover_pre o)
    | .ok (title, body) =>
      if o.coverFound = false then (.error .coverNotFound, cover_pre o)
      else if o.readCoverOk = false then
        (.error (.ioErr "could not read patchset cover letter"), cover_pre o)
      else if o.writeCoverOk = false then
        (.error (.ioErr "could not save cover letter"), cover_pre o)
      else
        (.ok (),
          cover_pre o ++ [.writeCoverFile (bind_cover title body o.coverContent)])

/-- FormatPatch::run from the conflict check on (main.rs lines 303-517):
conflict check, generation, cover-letter phase. The VersionDir guard is
armed exactly when generation succeeds; a later error drops it (one final
`rmVersionDir`), while the success path reaches `mem::forget` (line 515)
and the directory is kept. -/
def format_patch_run (o : Oracle) : Except RunErr Unit × List Op :=
  match conflict_check o.dirExists o.force with
  | .error e => (.error e, [])
  | .ok t0 =>
    match (generation_phase o).1 with
    | .error e => (.error e, t0 ++ (generation_phase o).2)
    | .ok _ =>
      match (cover_phase o).1 with
      | .error e =>
        (.error e, t0 ++ (generation_phase o).2 ++ (cover_phase o).2
          ++ [.rmVersionDir])
      | .ok _ => (.ok (), t0 ++ (generation_phase o).2 ++ (cover_phase o).2)

/-- The transient-resource cleanup operations of a trace, in order. -/
def cleanup_ops (ops : List Op) : List Op :=
  ops.filter (fun op =>
    match op with
    | .gitWorktreeRemove => true
    | .gitBranchDelete _ => true
    | _ => false)

/-!  Helper lemmas.  -/

theorem head?_dropWhile_not {α : Type} (p : α → Bool) (l : List α) (a : α)
    (h : (l.dropWhile p).head? = some a) : p a = false := by
  induction l with
  | nil => simp [List.dropWhile] at h
  | cons c l ih =>
    rw [List.dropWhile_cons] at h
    by_cases hc : p c = true
    · rw [if_pos hc] at h
      exact ih h
    · rw [if_neg hc] at h
      simp only [List.head?_cons, Option.some.injEq] at h
      subst h
      exact Bool.not_eq_true _ |>.mp hc

theorem getLast?_dropWhile {α : Type} (p : α → Bool) (l : List α)
    (h : l.dropWhile p ≠ []) : (l.dropWhile p).getLast? = l.getLast? := by
  induction l with
  | nil => simp [List.dropWhile] at h
  | cons c l ih =>
    rw [List.dropWhile_cons] at h ⊢
    by_cases hc : p c = true
    · rw [if_pos hc] at h ⊢
      have hl : l ≠ [] := by
        intro he
        subst he
        simp [List.dropWhile] at h
      rw [ih h]
      cases l with
      | nil => exact absurd rfl hl
      | cons b l2 => simp
    · rw [if_neg hc]

theorem no_edge_ws_str_trim (s : String) : no_edge_ws (str_trim s) = true := by
  unfold no_edge_ws str_trim trim_list
  have hdata :
      (String.mk (((s.data.dropWhile is_ws).reverse.dropWhile is_ws).reverse)).data
        = ((s.data.dropWhile is_ws).reverse.dropWhile is_ws).reverse := rfl
  rw [hdata, Bool.and_eq_true]
  constructor
  · rw [List.head?_reverse]
    rcases hX : ((s.data.dropWhile is_ws).reverse.dropWhile is_ws) with _ | ⟨c, cs⟩
    · simp
    · have hne : (s.data.dropWhile is_ws).reverse.dropWhile is_ws ≠ [] := by
        rw [hX]; simp
      rw [← hX, getLast?_dropWhile is_ws _ hne, List.getLast?_reverse]
      rcases hh : (s.data.dropWhile is_ws).head? with _ | c2
      · simp
      · simp [head?_dropWhile_not is_ws _ _ hh]
  · rw [List.getLast?_reverse]
    rcases hh : ((s.data.dropWhile is_ws).reverse.dropWhile is_ws).head? with _ | c
    · simp
    · simp [head?_dropWhile_not is_ws _ _ hh]

theorem list_starts_append (p r : List Char) : list_starts p (p ++ r) = true := by
  induction p with
  | nil => simp [list_starts]
  | cons a ps ih => simp [list_starts, ih]

theorem list_contains_of_starts (pat s : List Char)
    (h : list_starts pat s = true) : list_contains pat s = true := by
  cases s with
  | nil => simpa [list_contains] using h
  | cons c cs => simp [list_contains, h]

theorem list_contains_append_left (pat s t : List Char)
    (h : list_contains pat t = true) : list_contains pat (s ++ t) = true := by
  induction s with
  | nil => simpa using h
  | cons c cs ih => simp [list_contains, ih]

theorem list_starts_iff (p : List Char) :
    ∀ s, list_starts p s = true ↔ ∃ r, s = p ++ r := by
  induction p with
  | nil =>
    intro s
    simp [list_starts]
  | cons a ps ih =>
    intro s
    cases s with
    | nil =>
      simp [list_starts]
    | cons c cs =>
      simp only [list_starts, Bool.and_eq_true, decide_eq_true_eq, ih cs,
        List.cons_append, List.cons.injEq]
      constructor
      · rintro ⟨rfl, r, rfl⟩
        exact ⟨r, rfl, rfl⟩
      · rintro ⟨r, rfl, rfl⟩
        exact ⟨rfl, r, rfl⟩

theorem ends_with_exists (n pat : String) (h : ends_with n pat = true) :
    ∃ a, n.data = a ++ pat.data := by
  unfold ends_with at h
  obtain ⟨r, hr⟩ := (list_starts_iff pat.data.reverse n.data.reverse).mp h
  refine ⟨r.reverse, ?_⟩
  have := congrArg List.reverse hr
  simpa [List.reverse_append] using this

theorem contains_of_ends_cl_suffix (pre n : String)
    (h : ends_with n "cover-letter.patch" = true) :
    contains_sub (pre ++ n) cover_letter_name = true := by
  obtain ⟨a, ha⟩ := ends_with_exists n "cover-letter.patch" h
  have hsplit : ("cover-letter.patch" : String).data
      = ("cover-letter" : String).data ++ (".patch" : String).data := by decide
  unfold contains_sub cover_letter_name
  rw [String.data_append, ha, hsplit, ← List.append_assoc]
  apply list_contains_append_left
  apply list_contains_of_starts
  exact list_starts_append _ _

theorem rm_not_in_generation (o : Oracle) :
    Op.rmVersionDir ∉ (generation_phase o).2 := by
  unfold generation_phase interdiff_phase
  cases o.diff <;> split_ifs <;> simp

theorem rm_not_in_cover_pre (o : Oracle) : Op.rmVersionDir ∉ cover_pre o := by
  unfold cover_pre
  split_ifs <;> simp

theorem rm_not_in_cover (o : Oracle) :
    Op.rmVersionDir ∉ (cover_phase o).2 := by
  have hpre := rm_not_in_cover_pre o
  unfold cover_phase
  rcases hp : parse_template o.templateContent with e | p
  · cases e <;> split_ifs <;> simp_all
  · obtain ⟨t, b⟩ := p
    split_ifs <;> simp_all

/-!  The claims.  -/

/-- C3: latest_version returns some 5 on a branch directory whose entries,
apart from the reserved cover-letter-template entry, are the numeric names
1, 2 and 5 (shown with and without the reserved entry present); returns none
on a directory with no entries; and returns some 0 on a directory containing
only the reserved entry. -/
theorem c3_latest_version_cases :
    latest_version ["1", "2", "5"] = .ok (some 5)
    ∧ latest_version ["2", "cover-letter", "5", "1"] = .ok (some 5)
    ∧ latest_version [] = .ok none
    ∧ latest_version ["cover-letter"] = .ok (some 0) := by
  decide

/-- Representative generated cover-letter file: each placeholder marker
occurs exactly once, as in the backend's output. -/
def gen_cover_example : String :=
  "From 1234 Mon Sep 17 00:00:00 2001\nSubject: [PATCH 0/2] *** SUBJECT HERE ***\n\n*** BLURB HERE ***\n\nsig\n"

/-- The same file after binding title "Fix bug" and body "Details here.":
each marker replaced once, everything else untouched. -/
def bound_cover_example : String :=
  "From 1234 Mon Sep 17 00:00:00 2001\nSubject: [PATCH 0/2] Fix bug\n\nDetails here.\n\nsig\n"

/-- C4: from the template content "Title: Fix bug\n\nDetails here.\n" the
binder extracts title "Fix bug" and body "Details here." (both trimmed), and
the bind step applied to a generated cover-letter file containing each
placeholder marker exactly once replaces the subject marker by the trimmed
title and the blurb marker by the trimmed body, each exactly once, altering
no other text (the output is the explicit expected file, in which neither
marker remains). -/
theorem c4_cover_letter_round_trip :
    parse_template "Title: Fix bug\n\nDetails here.\n"
        = .ok ("Fix bug", "\nDetails here.\n")
    ∧ extract_template "Title: Fix bug\n\nDetails here.\n"
        = .ok ("Fix bug", "Details here.")
    ∧ count_occ gen_cover_example "*** SUBJECT HERE ***" = 1
    ∧ count_occ gen_cover_example "*** BLURB HERE ***" = 1
    ∧ bind_cover "Fix bug" "\nDetails here.\n" gen_cover_example
        = bound_cover_example
    ∧ count_occ bound_cover_example "*** SUBJECT HERE ***" = 0
    ∧ count_occ bound_cover_example "*** BLURB HERE ***" = 0 := by
  decide

/-- C5 (amended): the patches replayed for an interdiff against old version
m are exactly the entries of that version's directory whose full path does
not contain the substring "cover-letter"; in particular the cover-letter
patch file (name ending in "cover-letter.patch") is always excluded, but the
exclusion is a substring test on the whole path, not a test for the
cover-letter patch file alone. -/
theorem c5_interdiff_enumeration (branchDir : String) (m : Nat)
    (entries : List String) :
    interdiff_patches branchDir m entries
      = (entries.filter
          (fun n => !contains_sub (full_path branchDir m n) cover_letter_name)).map
          (full_path branchDir m)
    ∧ ∀ n, n ∈ entries → ends_with n "cover-letter.patch" = true →
        full_path branchDir m n ∉ interdiff_patches branchDir m entries := by
  constructor
  · unfold interdiff_patches
    exact List.filter_map _ _
  · intro n hn he hmem
    unfold interdiff_patches at hmem
    rw [List.mem_filter] at hmem
    have hc : contains_sub (full_path branchDir m n) cover_letter_name = true :=
      contains_of_ends_cl_suffix (branchDir ++ "/" ++ toString m ++ "/") n he
    simp [hc] at hmem

/-- C5 witness: for a directory holding the cover-letter patch and one
ordinary patch, the cover-letter patch's path is not replayed. -/
theorem c5_witness :
    full_path "repo/.patches/feat" 2 "v2-0000-cover-letter.patch"
      ∉ interdiff_patches "repo/.patches/feat" 2
          ["v2-0000-cover-letter.patch", "0001-a.patch"] :=
  (c5_interdiff_enumeration "repo/.patches/feat" 2
      ["v2-0000-cover-letter.patch", "0001-a.patch"]).2
    "v2-0000-cover-letter.patch" (by decide) (by decide)

/-- C5 counterexample: the entry "0001-improve-cover-letter-docs.patch" is
not the cover-letter patch file (its name does not end with the cover-letter
suffix), yet the code does not apply it, because its full path contains the
substring "cover-letter"; the claim's reading would apply it. -/
theorem c5_counterexample :
    ends_with "0001-improve-cover-letter-docs.patch" "cover-letter.patch" = false
    ∧ interdiff_patches "r/.patches/feat" 1
        ["v1-0000-cover-letter.patch", "0001-improve-cover-letter-docs.patch",
          "0002-foo.patch"]
      = ["r/.patches/feat/1/0002-foo.patch"]
    ∧ interdiff_patches_claim "r/.patches/feat" 1
        ["v1-0000-cover-letter.patch", "0001-improve-cover-letter-docs.patch",
          "0002-foo.patch"]
      = ["r/.patches/feat/1/0001-improve-cover-letter-docs.patch",
          "r/.patches/feat/1/0002-foo.patch"]
    ∧ interdiff_patches "r/.patches/feat" 1
        ["v1-0000-cover-letter.patch", "0001-improve-cover-letter-docs.patch",
          "0002-foo.patch"]
      ≠ interdiff_patches_claim "r/.patches/feat" 1
        ["v1-0000-cover-letter.patch", "0001-improve-cover-letter-docs.patch",
          "0002-foo.patch"] := by
  decide

/-- C7 (amended): a process that cannot be launched yields the distinct
launch-failure error; for a launched process the gateway errors exactly when
the exit status is non-zero, and in both outcomes the carried text is the
combined capture trimmed of leading AND trailing whitespace (Rust trim). -/
theorem c7_gateway (launched exitOk : Bool) (combined : String) :
    (launched = false →
      git_bare launched exitOk combined = .error (.launch "failed to launch git"))
    ∧ (launched = true →
        carried_text (git_bare launched exitOk combined) = some (str_trim combined)
        ∧ ((∃ e, git_bare launched exitOk combined = .error e) ↔ exitOk = false)) := by
  constructor
  · intro h
    simp [git_bare, h]
  · intro h
    subst h
    constructor
    · cases exitOk <;> simp [git_bare, carried_text]
    · cases exitOk <;> simp [git_bare]

/-- C7 witness: a launch failure is reported as such, and the text carried
for a failed command is the trimmed combined capture. -/
theorem c7_witness :
    git_bare false true "x" = .error (.launch "failed to launch git")
    ∧ carried_text (git_bare true false " boom ") = some (str_trim " boom ") :=
  ⟨(c7_gateway false true "x").1 rfl, ((c7_gateway true false " boom ").2 rfl).1⟩

/-- C7 counterexample: on the combined capture "  ok\n" the gateway returns
"ok" (leading whitespace also removed), while the claim's trailing-only trim
would keep "  ok". -/
theorem c7_counterexample :
    git_bare true true "  ok\n" = .ok "ok"
    ∧ trim_end_claim "  ok\n" = "  ok"
    ∧ ("ok" : String) ≠ "  ok" := by
  decide

/-- C8 (amended): a content with no newline fails with MissingTitleNewline;
a content that has a newline but whose first line does not start with the
title tag fails with MissingTitlePrefix (the newline check runs first, so a
one-line file lacking the tag reports the missing newline, not the missing
tag); and the title and body the binder extracts from a successfully parsed
template carry no leading or trailing whitespace. -/
theorem c8_template_parse (s : String) :
    (split_once_nl s = none → parse_template s = .error .missingTitleNewline)
    ∧ (∀ line rest, split_once_nl s = some (line, rest) →
        list_starts "Title: ".data line.data = false →
        parse_template s = .error .missingTitleTag)
    ∧ (∀ t b, extract_template s = .ok (t, b) →
        no_edge_ws t = true ∧ no_edge_ws b = true) := by
  refine ⟨?_, ?_, ?_⟩
  · intro h
    unfold parse_template
    rw [h]
  · intro line rest h hs
    unfold parse_template
    rw [h]
    unfold drop_title
    simp [hs]
  · intro t b h
    unfold extract_template at h
    rcases hp : parse_template s with e | p
    · rw [hp] at h
      simp [Except.map] at h
    · rw [hp] at h
      simp [Except.map] at h
      obtain ⟨h1, h2⟩ := h
      rw [← h1, ← h2]
      exact ⟨no_edge_ws_str_trim _, no_edge_ws_str_trim _⟩

/-- C8 witness: a one-line file reports the missing newline, a file whose
first line lacks the tag reports the missing tag, and a template with padded
title and body parses to trimmed values. -/
theorem c8_witness :
    parse_template "abc" = .error .missingTitleNewline
    ∧ parse_template "Hello\nWorld" = .error .missingTitleTag
    ∧ (no_edge_ws "a" = true ∧ no_edge_ws "b" = true) :=
  ⟨(c8_template_parse "abc").1 (by decide),
    (c8_template_parse "Hello\nWorld").2.1 "Hello" "World" (by decide) (by decide),
    (c8_template_parse "Title: a \n b ").2.2 "a" "b" (by decide)⟩

/-- C8 counterexample: the one-line content "xyz" has a first line that does
not start with the title tag, so the claim predicts MissingTitlePrefix, but
the code checks the newline first and fails with MissingTitleNewline, a
different error. -/
theorem c8_counterexample :
    list_starts "Title: ".data "xyz".data = false
    ∧ parse_template "xyz" = .error .missingTitleNewline
    ∧ TemplateErr.missingTitleNewline ≠ TemplateErr.missingTitleTag := by
  decide

/-- Fold helper for C9: as soon as some entry is neither the reserved name
nor numeric, the fold aborts with the panic of the source's expect. -/
theorem lv_fold_panics (cur : Nat) (entries : List String)
    (h : ∃ n ∈ entries, n ≠ cover_letter_name ∧ parse_u64 n = none) :
    lv_fold cur entries = .error (.panic "version is not an int") := by
  induction entries generalizing cur with
  | nil => simp at h
  | cons a rest ih =>
    obtain ⟨n, hn, hne, hp⟩ := h
    unfold lv_fold
    by_cases ha : a = cover_letter_name
    · rw [if_pos ha]
      apply ih
      rcases List.mem_cons.mp hn with rfl | hmem
      · exact absurd ha (by rw [← ha] at hne ⊢; exact hne)
      · exact ⟨n, hmem, hne, hp⟩
    · rw [if_neg ha]
      rcases hpa : parse_u64 a with _ | v
      · rfl
      · apply ih
        rcases List.mem_cons.mp hn with rfl | hmem
        · rw [hp] at hpa
          exact absurd hpa (by simp)
        · exact ⟨n, hmem, hne, hp⟩

/-- C9 (amended): on any branch directory holding an entry that is neither
the reserved cover-letter entry nor a decimal unsigned integer,
latest_version fails hard — but through the expect panic "version is not an
int", which aborts the process with that bare message; it is not a
CorruptVersionStore diagnostic surfaced with a context chain. It returns no
numeric result and skips nothing. -/
theorem c9_latest_version_panics (entries : List String)
    (h : ∃ n ∈ entries, n ≠ cover_letter_name ∧ parse_u64 n = none) :
    latest_version entries = .error (.panic "version is not an int") := by
  cases entries with
  | nil => simp at h
  | cons a rest =>
    unfold latest_version
    rw [lv_fold_panics 0 (a :: rest) h]
    rfl

/-- C9 witness: a directory with a non-numeric entry makes latest_version
abort with the panic. -/
theorem c9_witness :
    latest_version ["3", "bogus"] = .error (.panic "version is not an int") :=
  c9_latest_version_panics ["3", "bogus"] (by decide)

/-- C9 counterexample: the failure on a non-numeric entry is a panic, not a
diagnostic error carrying a context chain, contradicting the claim that the
corruption error is surfaced to the operator with its chained explanation. -/
theorem c9_counterexample :
    latest_version ["bogus"] = .error (.panic "version is not an int")
    ∧ LvErr.is_diag (.panic "version is not an int") = false := by
  decide

/-- C1: for every interdiff computation in which the transient branch was
created, whatever the later outcome, the trace of the block contains exactly
these cleanup operations before returning: the worktree removal followed by
the branch deletion when the worktree had been created, and the branch
deletion alone when worktree creation itself failed (then no worktree
exists); in every case the worktree removal precedes the branch deletion and
no transient resource survives the block. -/
theorem c1_interdiff_cleanup (o : Oracle) (m : Nat)
    (h : o.branchCreateOk = true) :
    cleanup_ops (interdiff_phase o m).2
      = if o.tempDirOk = true ∧ o.worktreeAddOk = true
        then [Op.gitWorktreeRemove, Op.gitBranchDelete temp_branch_name]
        else [Op.gitBranchDelete temp_branch_name] := by
  unfold interdiff_phase cleanup_ops
  split_ifs <;> simp_all [List.filter_append]

/-- Baseline oracle used by the concrete runs: every step succeeds. -/
def oracle_base : Oracle :=
  { dirExists := false
    force := false
    version := some 2
    diff := some 1
    base := "origin/master"
    branchDir := "repo/.patches/feat"
    component := "comp"
    userExtra := []
    interdiffEntries := ["v1-0000-cover-letter.patch", "0001-a.patch"]
    branchCreateOk := true
    tempDirOk := true
    worktreeAddOk := true
    switchOk := true
    readEntriesOk := true
    amOk := true
    fpOk := true
    fpDirOnFail := false
    templateExists := true
    writeTemplateOk := true
    editorOk := true
    readBackOk := true
    templateContent := "Title: T\nB"
    coverFound := true
    readCoverOk := true
    coverContent := "s *** SUBJECT HERE *** m *** BLURB HERE *** e"
    writeCoverOk := true }

/-- Run in which applying the old patches fails. -/
def oracle_am_fail : Oracle := { oracle_base with amOk := false }

/-- C1 witness: in a run where the patch replay fails, the worktree is
removed and then the transient branch is deleted before the block returns. -/
theorem c1_witness :
    cleanup_ops (interdiff_phase oracle_am_fail 1).2
      = [Op.gitWorktreeRemove, Op.gitBranchDelete temp_branch_name] := by
  have h := c1_interdiff_cleanup oracle_am_fail 1 rfl
  simpa using h

/-- C2 (amended): once generation has succeeded (the VersionDir guard of
main.rs line 343 exists), any later failure of the workflow removes the
version directory as its very last operation before returning, while a
successful run performs no removal after the conflict check — the guard is
disarmed by mem::forget and the directory is kept. A failure DURING the
backend generation call does not arm the guard, so nothing is removed then
(see the C2 counterexample). -/
theorem c2_version_dir_rollback (o : Oracle) (t0 : List Op)
    (halloc : conflict_check o.dirExists o.force = .ok t0)
    (hgen : (generation_phase o).1 = .ok ()) :
    (∀ e, (format_patch_run o).1 = .error e →
      (format_patch_run o).2.getLast? = some Op.rmVersionDir)
    ∧ ((format_patch_run o).1 = .ok () →
        (format_patch_run o).2
            = t0 ++ (generation_phase o).2 ++ (cover_phase o).2
        ∧ Op.rmVersionDir ∉ (generation_phase o).2
        ∧ Op.rmVersionDir ∉ (cover_phase o).2) := by
  unfold format_patch_run
  rw [halloc, hgen]
  rcases hcov : (cover_phase o).1 with e | u
  · constructor
    · intro e2 _
      simp
    · intro hok
      simp at hok
  · constructor
    · intro e2 he2
      simp at he2
    · intro _
      exact ⟨rfl, rm_not_in_generation o, rm_not_in_cover o⟩

/-- Run in which the generated cover-letter patch is missing: the workflow
fails after generation. -/
def oracle_cover_fail : Oracle :=
  { oracle_base with diff := none, coverFound := false }

/-- C2 witness: in a run failing after generation, the final operation of
the trace removes the version directory. -/
theorem c2_witness :
    (format_patch_run oracle_cover_fail).2.getLast? = some Op.rmVersionDir :=
  (c2_version_dir_rollback oracle_cover_fail [] (by decide) (by decide)).1
    RunErr.coverNotFound (by decide)

/-- Run in which the backend fails during generation after having created
the output directory. -/
def oracle_fp_fail : Oracle :=
  { oracle_base with diff := none, fpOk := false, fpDirOnFail := true }

/-- C2 counterexample: when the backend invocation fails during patch
generation after the version directory was created, the run fails, the
directory-creating operation is in the trace, and no removal ever happens —
the guard only exists from generation success on, so the claim's "fails at
any point after the version directory has been created (during patch
generation, ...)" window is not honoured. -/
theorem c2_counterexample :
    (format_patch_run oracle_fp_fail).1 = .error (.gitFailed "format-patch")
    ∧ Op.mkVersionDir ∈ (format_patch_run oracle_fp_fail).2
    ∧ Op.rmVersionDir ∉ (format_patch_run oracle_fp_fail).2 := by
  decide

/-- C6: when the target version directory exists and force is false, the run
fails with the version-conflict error having performed no operation at all
(the existing directory is untouched); when it exists and force is true, the
first operation of the run removes it recursively, before any generation
step. -/
theorem c6_version_conflict (o : Oracle) (h : o.dirExists = true) :
    (o.force = false → format_patch_run o = (.error .versionConflict, []))
    ∧ (o.force = true →
        (format_patch_run o).2.head? = some Op.rmVersionDir) := by
  constructor
  · intro hf
    unfold format_patch_run conflict_check
    simp [h, hf]
  · intro hf
    unfold format_patch_run conflict_check
    simp only [h, hf, if_true, if_false, Bool.true_eq_false, ite_false, ite_true]
    rcases hg : (generation_phase o).1 with e | u
    · simp
    · rcases hcov : (cover_phase o).1 with e2 | u2 <;> simp

/-- Existing version directory, no force. -/
def oracle_exists_noforce : Oracle := { oracle_base with dirExists := true }

/-- Existing version directory, force set. -/
def oracle_exists_force : Oracle :=
  { oracle_base with dirExists := true, force := true, diff := none }

/-- C6 witness: the conflict error with an empty trace without force, and
the removal as first operation with force. -/
theorem c6_witness :
    format_patch_run oracle_exists_noforce = (.error .versionConflict, [])
    ∧ (format_patch_run oracle_exists_force).2.head? = some Op.rmVersionDir :=
  ⟨(c6_version_conflict oracle_exists_noforce rfl).1 rfl,
    (c6_version_conflict oracle_exists_force rfl).2 rfl⟩

/-- Helper for C10: when no version number is available, no token of the
backend invocation is the version flag. -/
theorem dash_v_not_mem (d c : String) (extra userExtra : List String)
    (h1 : "-v" ∉ extra) (h2 : "-v" ∉ userExtra) (h3 : d ≠ "-v") :
    "-v" ∉ format_patch_args d none c extra userExtra := by
  have hspfx : ("-v" : String) ≠ "--subject-prefix=PATCH " ++ c := by
    intro hcontra
    have hl := congrArg String.length hcontra
    rw [String.length_append] at hl
    have hv : ("-v" : String).length = 2 := by decide
    have hs : ("--subject-prefix=PATCH " : String).length = 23 := by decide
    omega
  intro hmem
  unfold format_patch_args at hmem
  rcases List.mem_append.mp hmem with hA | hB
  · rcases List.mem_append.mp hA with hC | hD
    · rcases List.mem_append.mp hC with hE | hF
      · rcases List.mem_append.mp hE with hG | hH
        · simp only [List.mem_cons, List.not_mem_nil, or_false] at hG
          rcases hG with hg | hg | hg
          · exact absurd hg (by decide)
          · exact absurd hg (by decide)
          · exact h3 hg.symm
        · simp at hH
      · simp only [List.mem_cons, List.not_mem_nil, or_false] at hF
        rcases hF with hf | hf
        · exact hspfx hf
        · exact absurd hf (by decide)
    · exact h1 hD
  · exact h2 hB

/-- C10: with no explicit version and no prior version the directory is
named "1" while the backend invocation carries no version flag; and
(provided the caller-controlled tokens are not themselves the literal flag)
the invocation carries the version flag exactly when an explicit version was
supplied or latest_version found one. -/
theorem c10_version_argument (explicit latest : Option Nat) (d c : String)
    (extra userExtra : List String)
    (h1 : "-v" ∉ extra) (h2 : "-v" ∉ userExtra) (h3 : d ≠ "-v") :
    (explicit = none → latest = none →
      version_dir_name (compute_version explicit latest) = "1"
      ∧ "-v" ∉ format_patch_args d (compute_version explicit latest) c
          extra userExtra)
    ∧ ("-v" ∈ format_patch_args d (compute_version explicit latest) c
          extra userExtra
        ↔ (explicit.isSome = true ∨ latest.isSome = true)) := by
  constructor
  · intro he hl
    subst he
    subst hl
    exact ⟨rfl, dash_v_not_mem d c extra userExtra h1 h2 h3⟩
  · cases explicit with
    | some v =>
      simp only [compute_version, Option.isSome_some, true_or, iff_true]
      unfold format_patch_args
      simp
    | none =>
      cases latest with
      | some w =>
        simp only [compute_version, Option.map_some, Option.isSome_some,
          or_true, iff_true]
        unfold format_patch_args
        simp
      | none =>
        simp only [compute_version, Option.map_none, Option.isSome_none]
        constructor
        · intro hmem
          exact absurd hmem (dash_v_not_mem d c extra userExtra h1 h2 h3)
        · intro hor
          rcases hor with h | h <;> exact absurd h (by decide)

/-- C10 witness: with no explicit version and no prior version, the
directory is "1" and the flag is absent; with a prior version 2 the flag is
present. -/
theorem c10_witness :
    (version_dir_name (compute_version none none) = "1"
      ∧ "-v" ∉ format_patch_args "out" (compute_version none none) "comp" [] [])
    ∧ "-v" ∈ format_patch_args "out" (compute_version none (some 2)) "comp" [] [] :=
  ⟨(c10_version_argument none none "out" "comp" [] []
      (by simp) (by simp) (by decide)).1 rfl rfl,
    (c10_version_argument none (some 2) "out" "comp" [] []
      (by simp) (by simp) (by decide)).2.mpr (Or.inr rfl)⟩

end Gsm
